import Mathlib

/-!
Verification of the py_ti technical-indicator library.

Series are embedded as `List ℚ`; the NaN / undefined sentinel produced by
pandas warm-up shifts and zero-range divisions is embedded as `none` in
`List (Option ℚ)`.  Functions that can raise return `Except PyErr`.
-/

namespace PyTi

/-- Errors surfaced by the library: numeric-parameter precondition
violations, aligned-length violations, and the pandas error raised when a
multi-element boolean Series is used as the condition of an if-statement. -/
inductive PyErr where
  | invalidParameter
  | shapeMismatch
  | ambiguousTruth
deriving DecidableEq, Repr

/-- A dataframe with open/high/low/close/volume columns, plus any columns
added by indicator calls made with add_col=True. -/
structure DF where
  opn : List ℚ
  high : List ℚ
  low : List ℚ
  close : List ℚ
  volume : List ℚ
  extra : List (String × List (Option ℚ))
deriving DecidableEq, Repr

/-- Number of rows of a dataframe. -/
def DF.nrows (df : DF) : ℕ := df.close.length

/-- Well-formedness: the five base columns are index-aligned. -/
def DF.wf (df : DF) : Prop :=
  df.opn.length = df.close.length ∧ df.high.length = df.close.length ∧
    df.low.length = df.close.length ∧ df.volume.length = df.close.length

/-- add_col=True attaches a named output column to the dataframe. -/
def DF.addCol (df : DF) (name : String) (xs : List (Option ℚ)) : DF :=
  { df with extra := df.extra ++ [(name, xs)] }

/-- pandas `Series.shift(1)`: index 0 becomes the NaN sentinel, index i
holds the value of the previous row. -/
def shiftCol (xs : List ℚ) : List (Option ℚ) :=
  (List.range xs.length).map fun i =>
    if i = 0 then none else some (xs.getD (i - 1) 0)

/-- Binary arithmetic on possibly-NaN values: NaN propagates. -/
def o2 (f : ℚ → ℚ → ℚ) : Option ℚ → Option ℚ → Option ℚ
  | some a, some b => some (f a b)
  | _, _ => none

/-- pandas elementwise `==` on possibly-NaN values: any comparison with
NaN is False. -/
def optEqB (a b : Option ℚ) : Bool :=
  match a, b with
  | some x, some y => decide (x = y)
  | _, _ => false

/-- pandas elementwise `<` on possibly-NaN values: any comparison with
NaN is False. -/
def optLtB (a b : Option ℚ) : Bool :=
  match a, b with
  | some x, some y => decide (x < y)
  | _, _ => false

/-- Python truthiness of a pandas boolean Series: only a one-element
Series has a defined truth value; otherwise pandas raises ValueError
("the truth value of a Series is ambiguous"). -/
def seriesBool (bs : List Bool) : Except PyErr Bool :=
  if bs.length = 1 then .ok (bs.getD 0 false) else .error .ambiguousTruth

/-- Running prefix sums, as pandas `cumsum` on a NaN-free Series. -/
def cumsumFrom (acc : ℚ) : List ℚ → List ℚ
  | [] => []
  | x :: xs => (acc + x) :: cumsumFrom (acc + x) xs

/-- pandas `cumsum` with its default skipna=True: a NaN stays NaN but the
running sum continues over it. -/
def cumsumSkip (acc : ℚ) : List (Option ℚ) → List (Option ℚ)
  | [] => []
  | none :: xs => none :: cumsumSkip acc xs
  | some x :: xs => some (acc + x) :: cumsumSkip (acc + x) xs

/-- `momentum` (py_ti.py line 155): `df[column].diff(n)`; positions with
fewer than n predecessors are the NaN sentinel. -/
def diffn (n : ℕ) (xs : List ℚ) : List (Option ℚ) :=
  (List.range xs.length).map fun i =>
    if i < n then none else some (xs.getD i 0 - xs.getD (i - n) 0)

/-- `momentum` output series for add_col=False. -/
def momentum (n : ℕ) (close : List ℚ) : List (Option ℚ) := diffn n close

/-- pandas `pct_change`: out[i] = x[i]/x[i-1] - 1, NaN sentinel at 0. -/
def pct_change (xs : List ℚ) : List (Option ℚ) :=
  (List.range xs.length).map fun i =>
    if i = 0 then none else some (xs.getD i 0 / xs.getD (i - 1) 0 - 1)

/-- `returns` (py_ti.py lines 47-48) with the default simple ret_method. -/
def returns_simple (close : List ℚ) : List (Option ℚ) := pct_change close

/-- `true_range` (py_ti.py lines 245-248): nanmax of high-low,
|high-prev close|, |low-prev close|; at row 0 the two shifted candidates
are NaN and nanmax ignores them, leaving high-low. -/
def true_range (high low close : List ℚ) : List ℚ :=
  (List.range high.length).map fun i =>
    if i = 0 then high.getD 0 0 - low.getD 0 0
    else
      max (high.getD i 0 - low.getD i 0)
        (max |high.getD i 0 - close.getD (i - 1) 0|
          |low.getD i 0 - close.getD (i - 1) 0|)

/-- `acc_dist` close-location value (py_ti.py lines 867-868): the division
by the bar range high-low is numerically undefined when the range is
zero; the undefined result is the sentinel, not an error. -/
def clv (high low close volume : List ℚ) : List (Option ℚ) :=
  (List.range high.length).map fun i =>
    if high.getD i 0 = low.getD i 0 then none
    else
      some ((2 * close.getD i 0 - high.getD i 0 - low.getD i 0) /
        (high.getD i 0 - low.getD i 0) * volume.getD i 0)

/-- `acc_dist` (py_ti.py line 869): cumulative sum of the CLV series. -/
def acc_dist (high low close volume : List ℚ) : List (Option ℚ) :=
  cumsumSkip 0 (clv high low close volume)

/-- `obv` mask (py_ti.py lines 911-912): `close.mask(close >= close.shift(1),
other=1)` keeps the raw close on down bars (and on bar 0, where the shifted
comparison is False); `.where(_mask == 1, other=-1)` then maps to +1 exactly
when that kept value equals 1. -/
def obvMask (close : List ℚ) : List ℚ :=
  (List.range close.length).map fun i =>
    let m : ℚ :=
      if 1 ≤ i ∧ close.getD (i - 1) 0 ≤ close.getD i 0 then 1
      else close.getD i 0
    if m = 1 then 1 else -1

/-- `obv` (py_ti.py line 913): cumulative sum of volume times the mask. -/
def obv (close volume : List ℚ) : List ℚ :=
  cumsumFrom 0 (List.zipWith (fun v m => v * m) volume (obvMask close))

/-- `demark_pivots` (py_ti.py lines 1137-1150): shifts the whole frame by
one row, then uses full-Series comparisons as if-conditions; the branch
chosen determines the elementwise `num` series, and s1/pp/r1 follow. -/
def demark_pivots (df : DF) :
    Except PyErr (List (Option ℚ) × List (Option ℚ) × List (Option ℚ)) := do
  let so := shiftCol df.opn
  let sh := shiftCol df.high
  let sl := shiftCol df.low
  let sc := shiftCol df.close
  let num : List (Option ℚ) ←
    (do
      let beq ← seriesBool (List.zipWith optEqB so sc)
      if beq then
        pure (List.zipWith (o2 (· + ·))
          (List.zipWith (o2 (· + ·)) (sc.map (Option.map (2 * ·))) sh) sl)
      else do
        let bgt ← seriesBool (List.zipWith optLtB so sc)
        if bgt then
          pure (List.zipWith (o2 (· + ·))
            (List.zipWith (o2 (· + ·)) (sh.map (Option.map (2 * ·))) sl) sc)
        else
          pure (List.zipWith (o2 (· + ·))
            (List.zipWith (o2 (· + ·)) (sl.map (Option.map (2 * ·))) sh) sc))
  let pp := num.map (Option.map (· / 4))
  let r1 := List.zipWith (o2 (· - ·)) (num.map (Option.map (· / 2))) sl
  let s1 := List.zipWith (o2 (· - ·)) (num.map (Option.map (· / 2))) sh
  pure (s1, pp, r1)

/-- Modelled from the spec: `moving_averages.ema` is imported by
py_ti.py but is not under src/.  Spec 4.1: recursion
output[i] = alpha * input[i] + (1 - alpha) * output[i-1], carried
forward from the previous output. -/
def emaAlphaAux (a prev : ℚ) : List ℚ → List ℚ
  | [] => []
  | x :: xs => (a * x + (1 - a) * prev) :: emaAlphaAux a (a * x + (1 - a) * prev) xs

/-- Modelled from the spec: the EMA recursion with an arbitrary smoothing
factor, seeded with output[0] = input[0] (spec 4.1 seeding rule). -/
def emaAlpha (a : ℚ) : List ℚ → List ℚ
  | [] => []
  | x :: xs => x :: emaAlphaAux a x xs

/-- Modelled from the spec: `moving_averages.ema`, smoothing factor
alpha = 2/(n+1) (spec 4.1). -/
def ema (n : ℕ) (xs : List ℚ) : List ℚ := emaAlpha (2 / ((n : ℚ) + 1)) xs

/-- Modelled from the spec: `moving_averages.wilders_ma` is imported by
py_ti.py but is not under src/.  Spec 4.1: the identical recursion with
alpha = 1/n, written out with its own clauses. -/
def wildersAux (n : ℕ) (prev : ℚ) : List ℚ → List ℚ
  | [] => []
  | x :: xs =>
    ((1 / (n : ℚ)) * x + (1 - 1 / (n : ℚ)) * prev) ::
      wildersAux n ((1 / (n : ℚ)) * x + (1 - 1 / (n : ℚ)) * prev) xs

/-- Modelled from the spec: `moving_averages.wilders_ma`, same seeding
rule as the EMA (output[0] = input[0]). -/
def wilders_ma (n : ℕ) : List ℚ → List ℚ
  | [] => []
  | x :: xs => x :: wildersAux n x xs

/-- Modelled from the spec: a simple moving average with an n-bar warm-up
sentinel, the default sma collaborator used by `atr`. -/
def sma (n : ℕ) (xs : List ℚ) : List (Option ℚ) :=
  (List.range xs.length).map fun i =>
    if i + 1 < n then none
    else some ((((List.range n).map fun j => xs.getD (i - j) 0).sum) / n)

/-- PSAR trend direction (spec 4.2 states Rising and Falling). -/
inductive Trend where
  | rising
  | falling
deriving DecidableEq, Repr, Inhabited

/-- PSAR carried state (spec 3, PsarState): current SAR value, trend,
extreme point and acceleration factor. -/
structure PsarState where
  trend : Trend
  sar : ℚ
  ep : ℚ
  af : ℚ
deriving DecidableEq, Repr, Inhabited

/-- Modelled from the spec: `helper_loops.psar_loop` is imported by
py_ti.py but is not under src/.  Spec 4.2 initial state: Rising when
close[1] >= close[0] else Falling; the first SAR value is seeded from
the opposite extreme of bar 0 (low if Rising, high if Falling); the
extreme point starts at the favorable extreme of bar 0 and the acceleration
factor at its initial step. -/
def psarInit (high low close : List ℚ) (afStep : ℚ) : PsarState :=
  if close.getD 0 0 ≤ close.getD 1 0 then
    ⟨.rising, low.getD 0 0, high.getD 0 0, afStep⟩
  else
    ⟨.falling, high.getD 0 0, low.getD 0 0, afStep⟩

/-- Spec 4.2 step 2 clamp, Rising: the candidate SAR may not exceed the
lows of the prior two bars (prior one bar when only one exists). -/
def psarClampR (low : List ℚ) (i : ℕ) (cand : ℚ) : ℚ :=
  if 2 ≤ i then min cand (min (low.getD (i - 1) 0) (low.getD (i - 2) 0))
  else min cand (low.getD (i - 1) 0)

/-- Spec 4.2 step 2 clamp, Falling: the candidate SAR may not go below
the highs of the prior two bars. -/
def psarClampF (high : List ℚ) (i : ℕ) (cand : ℚ) : ℚ :=
  if 2 ≤ i then max cand (max (high.getD (i - 1) 0) (high.getD (i - 2) 0))
  else max cand (high.getD (i - 1) 0)

/-- Modelled from the spec: one bar of the PSAR state machine, spec 4.2
steps 1-4 in that order: candidate SAR, clamp, reversal test (flip with
SAR = extreme point, acceleration reset, new extreme at the current bar),
otherwise extreme-point update with step-capped acceleration growth. -/
def psarStep (afStep maxAf : ℚ) (high low : List ℚ) (i : ℕ)
    (s : PsarState) : PsarState :=
  let cand := s.sar + s.af * (s.ep - s.sar)
  match s.trend with
  | .rising =>
    let cr := psarClampR low i cand
    if low.getD i 0 < cr then ⟨.falling, s.ep, low.getD i 0, afStep⟩
    else
      let ep2 := max s.ep (high.getD i 0)
      ⟨.rising, cr, ep2, if s.ep < ep2 then min (s.af + afStep) maxAf else s.af⟩
  | .falling =>
    let cf := psarClampF high i cand
    if cf < high.getD i 0 then ⟨.rising, s.ep, high.getD i 0, afStep⟩
    else
      let ep2 := min s.ep (low.getD i 0)
      ⟨.falling, cf, ep2, if ep2 < s.ep then min (s.af + afStep) maxAf else s.af⟩

/-- States reached from index i onward, driven by the remaining fuel. -/
def psarStatesAux (afStep maxAf : ℚ) (high low : List ℚ) :
    ℕ → PsarState → ℕ → List PsarState
  | _, _, 0 => []
  | i, s, fuel + 1 =>
    psarStep afStep maxAf high low i s ::
      psarStatesAux afStep maxAf high low (i + 1)
        (psarStep afStep maxAf high low i s) fuel

/-- The full PSAR state trace: the seeded state followed by the state
after each bar i = 1 .. N-1. -/
def psarStates (high low close : List ℚ) (afStep maxAf : ℚ) : List PsarState :=
  psarInit high low close afStep ::
    psarStatesAux afStep maxAf high low 1 (psarInit high low close afStep)
      (close.length - 1)

/-- Modelled from the spec: `helper_loops.psar_loop`; output[0] is the
seed value and output[i] is the SAR after the step 3/4 resolution of
bar i (spec 4.2). -/
def psar_loop (high low close : List ℚ) (afStep maxAf : ℚ) : List ℚ :=
  if close.length = 0 then []
  else (psarStates high low close afStep maxAf).map PsarState.sar

/-- Modelled from the spec: `check_errors` is imported by py_ti.py but is
not under src/.  Spec 4.2 failure modes for `parabolic_sar`: step <= 0 or
max_af <= step fail with InvalidParameter before any computation. -/
def check_errors_psar (afStep maxAf : ℚ) : Except PyErr Unit :=
  if afStep ≤ 0 ∨ maxAf ≤ afStep then .error .invalidParameter else .ok ()

/-- Modelled from the spec: `check_errors` preconditions for
`supertrend` (spec 4.3): factor <= 0 or n < 1 fail with
InvalidParameter before any computation. -/
def check_errors_supertrend (n : ℕ) (factor : ℚ) : Except PyErr Unit :=
  if factor ≤ 0 ∨ n < 1 then .error .invalidParameter else .ok ()

/-- `parabolic_sar` (py_ti.py lines 754-771): validate parameters first,
then run the loop; with add_col=True the psar column is attached to the
frame, otherwise the frame is returned untouched beside the series. -/
def parabolic_sar (df : DF) (afStep maxAf : ℚ) (addCol : Bool) :
    DF × Except PyErr (List ℚ) :=
  match check_errors_psar afStep maxAf with
  | .error e => (df, .error e)
  | .ok _ =>
    let psar := psar_loop df.high df.low df.close afStep maxAf
    if addCol then (df.addCol "psar" (psar.map some), .ok psar)
    else (df, .ok psar)

/-- Supertrend carried state (spec 3, SupertrendState): trend, final
bands and the active trend-line value. -/
structure StState where
  up : Bool
  fub : ℚ
  flb : ℚ
  value : ℚ
deriving DecidableEq, Repr, Inhabited

/-- First active bar of the supertrend machine: final bands are the basic
bands there and the trend defaults to Down, emitting the upper band
(spec 4.3 seed convention). -/
def stInit (bub blb : List (Option ℚ)) (i : ℕ) : StState :=
  ⟨false, (bub.getD i none).getD 0, (blb.getD i none).getD 0,
    (bub.getD i none).getD 0⟩

/-- Modelled from the spec: one bar of the supertrend machine, spec 4.3:
the final-band ratchet followed by the standard trend/value selection
against the opposite band. -/
def stStep (close : List ℚ) (bub blb : List (Option ℚ)) (i : ℕ)
    (s : StState) : StState :=
  let bu := (bub.getD i none).getD 0
  let bl := (blb.getD i none).getD 0
  let fub := if bu < s.fub ∨ s.fub < close.getD (i - 1) 0 then bu else s.fub
  let flb := if s.flb < bl ∨ close.getD (i - 1) 0 < s.flb then bl else s.flb
  if s.up then
    if flb ≤ close.getD i 0 then ⟨true, fub, flb, flb⟩
    else ⟨false, fub, flb, fub⟩
  else
    if close.getD i 0 ≤ fub then ⟨false, fub, flb, fub⟩
    else ⟨true, fub, flb, flb⟩

/-- Active-phase values from index i onward, driven by fuel. -/
def stAux (close : List ℚ) (bub blb : List (Option ℚ)) :
    ℕ → StState → ℕ → List (Option ℚ)
  | _, _, 0 => []
  | i, s, fuel + 1 =>
    some (stStep close bub blb i s).value ::
      stAux close bub blb (i + 1) (stStep close bub blb i s) fuel

/-- Modelled from the spec: `helper_loops.supertrend_loop` is imported by
py_ti.py but is not under src/.  Spec 4.3: output is the NaN sentinel
for the ATR warm-up i < n, then the machine starts Down and emits the
active final band each bar. -/
def supertrend_loop (close : List ℚ) (bub blb : List (Option ℚ)) (n : ℕ) :
    List (Option ℚ) :=
  if close.length ≤ n then List.replicate close.length none
  else
    List.replicate n none ++
      (some (stInit bub blb n).value ::
        stAux close bub blb (n + 1) (stInit bub blb n) (close.length - n - 1))

/-- Modelled from the spec: the supertrend core contract of spec 4.3 /
spec 7, over a close Series, the midpoint Series and an already-computed
ATR Series: InvalidParameter for factor <= 0 or n < 1, ShapeMismatch when
the ATR and close Series differ in length, otherwise the ratcheted-band
state machine output. -/
def supertrend_core (close hlAvg : List ℚ) (atrIn : List (Option ℚ))
    (factor : ℚ) (n : ℕ) : Except PyErr (List (Option ℚ)) :=
  if factor ≤ 0 ∨ n < 1 then .error .invalidParameter
  else if close.length ≠ atrIn.length then .error .shapeMismatch
  else
    let bub := (List.range close.length).map fun i =>
      (atrIn.getD i none).map fun a => hlAvg.getD i 0 + factor * a
    let blb := (List.range close.length).map fun i =>
      (atrIn.getD i none).map fun a => hlAvg.getD i 0 - factor * a
    .ok (supertrend_loop close bub blb n)

/-- `supertrend` (py_ti.py lines 815-833): validate parameters first,
then build the ATR and basic bands from the frame itself and run the
loop; with add_col=True the column is attached, otherwise the frame is
returned untouched beside the series. -/
def supertrend (df : DF) (n : ℕ) (factor : ℚ) (addCol : Bool) :
    DF × Except PyErr (List (Option ℚ)) :=
  match check_errors_supertrend n factor with
  | .error e => (df, .error e)
  | .ok _ =>
    let hlAvg := (List.range df.high.length).map fun i =>
      (df.high.getD i 0 + df.low.getD i 0) / 2
    match supertrend_core df.close hlAvg
        (sma n (true_range df.high df.low df.close)) factor n with
    | .error e => (df, .error e)
    | .ok st =>
      if addCol then (df.addCol "supertrend" st, .ok st)
      else (df, .ok st)

/-- The acceleration-factor relation between consecutive PSAR states:
within a trend run the factor does not decrease, and a reversal resets
it exactly to the initial step. -/
def afRel (afStep : ℚ) (s t : PsarState) : Prop :=
  (t.trend = s.trend → s.af ≤ t.af) ∧ (t.trend ≠ s.trend → t.af = afStep)

theorem getD_rangeMap {α : Type} (f : ℕ → α) (d : α) {N i : ℕ} (h : i < N) :
    ((List.range N).map f).getD i d = f i := by
  rw [List.getD_eq_getElem?_getD, List.getElem?_map, List.getElem?_range h]
  rfl

theorem cumsumSkip_length (acc : ℚ) (xs : List (Option ℚ)) :
    (cumsumSkip acc xs).length = xs.length := by
  induction xs generalizing acc with
  | nil => rfl
  | cons x xs ih => cases x <;> simp [cumsumSkip, ih]

theorem cumsumSkip_none (xs : List (Option ℚ)) :
    ∀ acc i, xs.getD i (some 0) = none →
      (cumsumSkip acc xs).getD i (some 0) = none := by
  induction xs with
  | nil => intro acc i h; simp at h
  | cons x xs ih =>
    intro acc i h
    cases i with
    | zero => cases x with
      | none => rfl
      | some v => simp at h
    | succ i =>
      cases x with
      | none => simpa [cumsumSkip] using ih acc i (by simpa using h)
      | some v => simpa [cumsumSkip] using ih (acc + v) i (by simpa using h)

theorem shiftCol_length (xs : List ℚ) : (shiftCol xs).length = xs.length := by
  simp [shiftCol]

/-- C8: on the concrete close series [10,10,10,10,10], the EMA with
window n = 3 returns exactly [10,10,10,10,10]; the seed equals the first
input value, so there is no warm-up sentinel. -/
theorem ema_const_five : ema 3 [10, 10, 10, 10, 10] = [10, 10, 10, 10, 10] := by
  norm_num [ema, emaAlpha, emaAlphaAux]

theorem wildersAux_eq_emaAlphaAux (n : ℕ) (prev : ℚ) (xs : List ℚ) :
    wildersAux n prev xs = emaAlphaAux (1 / (n : ℚ)) prev xs := by
  induction xs generalizing prev with
  | nil => rfl
  | cons x xs ih => simp [wildersAux, emaAlphaAux, ih]

/-- C3: for every input series and window n >= 1, the Wilders moving
average equals the EMA recursion with smoothing factor 1/n at every
index (identical seeding). -/
theorem wilders_is_ema_alpha (n : ℕ) (_h : 1 ≤ n) (xs : List ℚ) :
    wilders_ma n xs = emaAlpha (1 / (n : ℚ)) xs := by
  cases xs with
  | nil => rfl
  | cons x xs => simp [wilders_ma, emaAlpha, wildersAux_eq_emaAlphaAux]

/-- Witness for C3 at n = 3 on a concrete series. -/
theorem wilders_is_ema_alpha_w :
    1 ≤ 3 ∧ wilders_ma 3 [1, 2, 4] = emaAlpha (1 / (3 : ℚ)) [1, 2, 4] :=
  ⟨by decide, wilders_is_ema_alpha 3 (by decide) [1, 2, 4]⟩

/-- C2: with valid parameters, the supertrend core fails with
ShapeMismatch exactly when the ATR series and the close series it
consumes differ in length, and never raises that error on equal-length
inputs. -/
theorem supertrend_shape_check (close hlAvg : List ℚ)
    (atrIn : List (Option ℚ)) (factor : ℚ) (n : ℕ)
    (hf : 0 < factor) (hn : 1 ≤ n) :
    (close.length ≠ atrIn.length →
      supertrend_core close hlAvg atrIn factor n = .error .shapeMismatch) ∧
    (close.length = atrIn.length →
      supertrend_core close hlAvg atrIn factor n ≠ .error .shapeMismatch) := by
  have h1 : ¬(factor ≤ 0 ∨ n < 1) := by push_neg; exact ⟨hf, hn⟩
  unfold supertrend_core
  rw [if_neg h1]
  constructor
  · intro h; rw [if_pos h]
  · intro h; rw [if_neg (by simp [h])]; simp

/-- Witness for C2: a one-bar mismatch raises ShapeMismatch and the
aligned call does not. -/
theorem supertrend_shape_check_w :
    (0 : ℚ) < 2 ∧ 1 ≤ 1 ∧
      supertrend_core [1, 2] [1, 2] [some 1] 2 1 = .error .shapeMismatch ∧
      supertrend_core [1] [1] [some 1] 2 1 ≠ .error .shapeMismatch :=
  ⟨by norm_num, by decide,
    (supertrend_shape_check [1, 2] [1, 2] [some 1] 2 1 (by norm_num)
      (by decide)).1 (by decide),
    (supertrend_shape_check [1] [1] [some 1] 2 1 (by norm_num)
      (by decide)).2 (by decide)⟩

/-- C5: a parameter assignment violating a structural numeric
precondition (step <= 0 or max_af <= step for PSAR; factor <= 0 or
n < 1 for supertrend) makes the call fail with InvalidParameter, the
input dataframe is returned unchanged and no column is added even when
add_col=True. -/
theorem invalid_parameter_clean (df : DF) (afStep maxAf factor : ℚ)
    (n : ℕ) (addCol : Bool) :
    (afStep ≤ 0 ∨ maxAf ≤ afStep →
      parabolic_sar df afStep maxAf addCol = (df, .error .invalidParameter)) ∧
    (factor ≤ 0 ∨ n < 1 →
      supertrend df n factor addCol = (df, .error .invalidParameter)) := by
  constructor
  · intro h
    simp [parabolic_sar, check_errors_psar, if_pos h]
  · intro h
    unfold supertrend check_errors_supertrend
    rw [if_pos h]

/-- Witness for C5 at af_step = 0 and factor = 0 with add_col=True. -/
theorem invalid_parameter_clean_w :
    ((0 : ℚ) ≤ 0 ∨ (1 : ℚ) ≤ 0) ∧ ((0 : ℚ) ≤ 0 ∨ (3 : ℕ) < 1) ∧
      parabolic_sar ⟨[1], [2], [0], [1], [5], []⟩ 0 1 true =
        (⟨[1], [2], [0], [1], [5], []⟩, .error .invalidParameter) ∧
      supertrend ⟨[1], [2], [0], [1], [5], []⟩ 3 0 true =
        (⟨[1], [2], [0], [1], [5], []⟩, .error .invalidParameter) :=
  ⟨Or.inl le_rfl, Or.inl le_rfl,
    (invalid_parameter_clean ⟨[1], [2], [0], [1], [5], []⟩ 0 1 0 3 true).1
      (Or.inl le_rfl),
    (invalid_parameter_clean ⟨[1], [2], [0], [1], [5], []⟩ 0 1 0 3 true).2
      (Or.inl le_rfl)⟩

/-- C1: on any OHLC input with at least two bars, the initial PSAR trend
is Rising exactly when close[1] >= close[0], and the first output value
is the opposite extreme of bar 0: low[0] when Rising, high[0] when
Falling. -/
theorem psar_initial_seed (high low close : List ℚ) (afStep maxAf : ℚ)
    (h2 : 2 ≤ close.length) :
    ((psarInit high low close afStep).trend = Trend.rising ↔
      close.getD 0 0 ≤ close.getD 1 0) ∧
    (psar_loop high low close afStep maxAf).getD 0 0 =
      if close.getD 0 0 ≤ close.getD 1 0 then low.getD 0 0
      else high.getD 0 0 := by
  have h0 : close.length ≠ 0 := by omega
  unfold psar_loop
  rw [if_neg h0]
  unfold psarStates psarInit
  constructor
  · split <;> simp_all
  · split <;> simp_all

/-- Witness for C1 on a two-bar rising frame. -/
theorem psar_initial_seed_w :
    2 ≤ ([1, 2] : List ℚ).length ∧
      ((psarInit [2, 3] [1, 2] [1, 2] (1 / 50)).trend = Trend.rising ↔
        ([1, 2] : List ℚ).getD 0 0 ≤ ([1, 2] : List ℚ).getD 1 0) ∧
      (psar_loop [2, 3] [1, 2] [1, 2] (1 / 50) (1 / 5)).getD 0 0 =
        if ([1, 2] : List ℚ).getD 0 0 ≤ ([1, 2] : List ℚ).getD 1 0 then
          ([1, 2] : List ℚ).getD 0 0
        else ([2, 3] : List ℚ).getD 0 0 :=
  ⟨by decide, psar_initial_seed [2, 3] [1, 2] [1, 2] (1 / 50) (1 / 5) (by decide)⟩

/-- C4: momentum and returns outputs have exactly the input length, with
the leading warm-up positions holding the NaN sentinel rather than being
omitted. -/
theorem output_length_warmup (close : List ℚ) (n : ℕ) :
    (momentum n close).length = close.length ∧
    (∀ i, i < close.length → i < n →
      (momentum n close).getD i (some 0) = none) ∧
    (returns_simple close).length = close.length ∧
    (0 < close.length → (returns_simple close).getD 0 (some 0) = none) := by
  refine ⟨by simp [momentum, diffn], ?_, by simp [returns_simple, pct_change], ?_⟩
  · intro i hi hin
    rw [momentum, diffn, getD_rangeMap _ _ hi]
    simp [hin]
  · intro h
    rw [returns_simple, pct_change, getD_rangeMap _ _ h]
    simp

/-- Witness for C4 with a window longer than the data. -/
theorem output_length_warmup_w :
    (momentum 3 [4, 5]).length = ([4, 5] : List ℚ).length ∧
      (momentum 3 [4, 5]).getD 1 (some 0) = none ∧
      (returns_simple [4, 5]).length = ([4, 5] : List ℚ).length ∧
      (returns_simple [4, 5]).getD 0 (some 0) = none :=
  ⟨(output_length_warmup [4, 5] 3).1,
    (output_length_warmup [4, 5] 3).2.1 1 (by decide) (by decide),
    (output_length_warmup [4, 5] 3).2.2.1,
    (output_length_warmup [4, 5] 3).2.2.2 (by decide)⟩

/-- C7: true_range and acc_dist are total over every aligned input; the
bar-0 true range falls back to high-low (the shifted candidates are
ignored, not fatal), and a zero high-low range makes the corresponding
acc_dist position the NaN sentinel instead of an error. -/
theorem silent_nan_policy (high low close volume : List ℚ) :
    (true_range high low close).length = high.length ∧
    (0 < high.length →
      (true_range high low close).getD 0 0 = high.getD 0 0 - low.getD 0 0) ∧
    (acc_dist high low close volume).length = high.length ∧
    (∀ i, i < high.length → high.getD i 0 = low.getD i 0 →
      (acc_dist high low close volume).getD i (some 0) = none) := by
  refine ⟨by simp [true_range], ?_, ?_, ?_⟩
  · intro h
    rw [true_range, getD_rangeMap _ _ h]
    simp
  · rw [acc_dist, cumsumSkip_length]
    simp [clv]
  · intro i hi hzero
    apply cumsumSkip_none
    rw [clv, getD_rangeMap _ _ hi]
    simp only [List.getD_eq_getElem?_getD] at hzero
    simp [hzero]

/-- Witness for C7 on a frame whose middle bar has a zero range. -/
theorem silent_nan_policy_w :
    (true_range [2, 2, 3] [1, 2, 1] [2, 2, 2]).length =
        ([2, 2, 3] : List ℚ).length ∧
      (true_range [2, 2, 3] [1, 2, 1] [2, 2, 2]).getD 0 0 =
        ([2, 2, 3] : List ℚ).getD 0 0 - ([1, 2, 1] : List ℚ).getD 0 0 ∧
      (acc_dist [2, 2, 3] [1, 2, 1] [2, 2, 2] [10, 10, 10]).length =
        ([2, 2, 3] : List ℚ).length ∧
      (acc_dist [2, 2, 3] [1, 2, 1] [2, 2, 2] [10, 10, 10]).getD 1
        (some 0) = none :=
  ⟨(silent_nan_policy [2, 2, 3] [1, 2, 1] [2, 2, 2] [10, 10, 10]).1,
    (silent_nan_policy [2, 2, 3] [1, 2, 1] [2, 2, 2] [10, 10, 10]).2.1
      (by decide),
    (silent_nan_policy [2, 2, 3] [1, 2, 1] [2, 2, 2] [10, 10, 10]).2.2.1,
    (silent_nan_policy [2, 2, 3] [1, 2, 1] [2, 2, 2] [10, 10, 10]).2.2.2 1
      (by decide) (by norm_num)⟩

/-- C9: on any well-formed dataframe with at least two rows,
demark_pivots hits the pandas ambiguous-truth-value error at its first
full-Series if-condition and never returns pivot values. -/
theorem demark_always_raises (df : DF) (hwf : df.wf) (h2 : 2 ≤ df.nrows) :
    demark_pivots df = .error .ambiguousTruth := by
  obtain ⟨ho, hh, hl, hv⟩ := hwf
  have hlen : (List.zipWith optEqB (shiftCol df.opn)
      (shiftCol df.close)).length ≠ 1 := by
    rw [List.length_zipWith, shiftCol_length, shiftCol_length, ho]
    simp [DF.nrows] at h2
    omega
  simp only [demark_pivots, seriesBool]
  rw [if_neg hlen]
  rfl

/-- Witness for C9 on a concrete two-row frame. -/
theorem demark_always_raises_w :
    (DF.mk [1, 2] [2, 3] [0, 1] [1, 2] [5, 5] []).wf ∧
      2 ≤ (DF.mk [1, 2] [2, 3] [0, 1] [1, 2] [5, 5] []).nrows ∧
      demark_pivots (DF.mk [1, 2] [2, 3] [0, 1] [1, 2] [5, 5] []) =
        .error .ambiguousTruth :=
  ⟨⟨rfl, rfl, rfl, rfl⟩, by decide,
    demark_always_raises (DF.mk [1, 2] [2, 3] [0, 1] [1, 2] [5, 5] [])
      ⟨rfl, rfl, rfl, rfl⟩ (by decide)⟩

/-- C10 counterexample: on the one-row frame with close = [1] and
volume = [5], bar 0 is classified as an up bar (the kept close value
equals the literal 1 the mask tests for), so obv[0] is +5, not -5. -/
theorem obv_first_bar_counterexample :
    (obv [1] [5]).getD 0 0 = 5 ∧ (obv [1] [5]).getD 0 0 ≠ -((5 : ℚ)) := by
  have h : obv [1] [5] = [5] := by
    norm_num [obv, obvMask, cumsumFrom, List.range_succ, List.range_zero]
  rw [h]
  norm_num

/-- C10 amended: for every input with at least one row whose first close
differs from the literal 1, the first obv value is -volume[0]; bar 0 is
classified as a down bar because its comparison against the shifted NaN
is False and the kept close value is then not equal to 1. -/
theorem obv_first_bar (close volume : List ℚ) (h1 : 1 ≤ close.length)
    (hne : close.getD 0 0 ≠ 1) :
    (obv close volume).getD 0 0 = -(volume.getD 0 0) := by
  cases volume with
  | nil => simp [obv, cumsumFrom]
  | cons v vs =>
    have hmask0 : (obvMask close).getD 0 0 = -1 := by
      rw [obvMask, getD_rangeMap _ _ (by omega : 0 < close.length)]
      simp only [List.getD_eq_getElem?_getD] at hne
      simp [hne]
    have hne2 : obvMask close ≠ [] := by
      have : (obvMask close).length = close.length := by simp [obvMask]
      intro hcon
      rw [hcon] at this
      simp at this
      omega
    obtain ⟨m, ms, hm⟩ := List.exists_cons_of_ne_nil hne2
    have hmval : m = -1 := by
      rw [hm] at hmask0
      simpa using hmask0
    rw [obv, hm, hmval]
    simp [cumsumFrom]

theorem psarStep_afRel (afStep maxAf : ℚ) (high low : List ℚ) (i : ℕ)
    (s : PsarState) (h0 : 0 < afStep) (h1 : afStep ≤ maxAf)
    (hsl : afStep ≤ s.af) (hsu : s.af ≤ maxAf) :
    (afStep ≤ (psarStep afStep maxAf high low i s).af ∧
      (psarStep afStep maxAf high low i s).af ≤ maxAf) ∧
    afRel afStep s (psarStep afStep maxAf high low i s) := by
  cases htr : s.trend with
  | rising =>
    simp only [psarStep, htr, afRel]
    split
    · refine ⟨⟨le_refl _, h1⟩, fun hcon => ?_, fun _ => rfl⟩
      simp at hcon
    · refine ⟨⟨?_, ?_⟩, fun _ => ?_, fun hne => ?_⟩
      · split
        · exact le_min (by linarith) h1
        · exact hsl
      · split
        · exact min_le_right _ _
        · exact hsu
      · split
        · exact le_min (by linarith) hsu
        · exact le_refl _
      · simp at hne
  | falling =>
    simp only [psarStep, htr, afRel]
    split
    · refine ⟨⟨le_refl _, h1⟩, fun hcon => ?_, fun _ => rfl⟩
      simp at hcon
    · refine ⟨⟨?_, ?_⟩, fun _ => ?_, fun hne => ?_⟩
      · split
        · exact le_min (by linarith) h1
        · exact hsl
      · split
        · exact min_le_right _ _
        · exact hsu
      · split
        · exact le_min (by linarith) hsu
        · exact le_refl _
      · simp at hne

theorem psarStatesAux_inv (afStep maxAf : ℚ) (high low : List ℚ)
    (h0 : 0 < afStep) (h1 : afStep ≤ maxAf) :
    ∀ fuel i s, afStep ≤ s.af → s.af ≤ maxAf →
      (∀ t ∈ psarStatesAux afStep maxAf high low i s fuel,
        afStep ≤ t.af ∧ t.af ≤ maxAf) ∧
      List.Chain' (afRel afStep)
        (s :: psarStatesAux afStep maxAf high low i s fuel) := by
  intro fuel
  induction fuel with
  | zero =>
    intro i s hl hu
    simp [psarStatesAux]
  | succ fuel ih =>
    intro i s hl hu
    obtain ⟨⟨h2l, h2u⟩, hrel⟩ :=
      psarStep_afRel afStep maxAf high low i s h0 h1 hl hu
    obtain ⟨hmem, hchain⟩ :=
      ih (i + 1) (psarStep afStep maxAf high low i s) h2l h2u
    constructor
    · intro t ht
      rw [psarStatesAux] at ht
      rcases List.mem_cons.mp ht with rfl | ht
      · exact ⟨h2l, h2u⟩
      · exact hmem t ht
    · rw [psarStatesAux, List.chain'_cons]
      exact ⟨hrel, hchain⟩

/-- C6: along the whole PSAR state trace the acceleration factor stays
between the initial step and max_af; between consecutive bars it does
not decrease while the trend is unchanged, and on every reversal bar it
is reset exactly to the initial step. -/
theorem psar_af_run_invariant (high low close : List ℚ) (afStep maxAf : ℚ)
    (h0 : 0 < afStep) (h1 : afStep ≤ maxAf) :
    (∀ s ∈ psarStates high low close afStep maxAf,
      afStep ≤ s.af ∧ s.af ≤ maxAf) ∧
    List.Chain' (afRel afStep) (psarStates high low close afStep maxAf) := by
  have hinit : (psarInit high low close afStep).af = afStep := by
    unfold psarInit
    split <;> rfl
  obtain ⟨hmem, hchain⟩ :=
    psarStatesAux_inv afStep maxAf high low h0 h1 (close.length - 1) 1
      (psarInit high low close afStep) (le_of_eq hinit.symm)
      (by rw [hinit]; exact h1)
  constructor
  · intro s hs
    rw [psarStates] at hs
    rcases List.mem_cons.mp hs with rfl | hs
    · exact ⟨le_of_eq hinit.symm, by rw [hinit]; exact h1⟩
    · exact hmem s hs
  · rw [psarStates]
    exact hchain

/-- Witness for C6 on a two-bar rising frame with the default
parameters 1/50 and 1/5. -/
theorem psar_af_run_invariant_w :
    (0 : ℚ) < 1 / 50 ∧ (1 / 50 : ℚ) ≤ 1 / 5 ∧
      ((1 / 50 : ℚ) ≤ (psarInit [2, 3] [1, 2] [1, 2] (1 / 50)).af ∧
        (psarInit [2, 3] [1, 2] [1, 2] (1 / 50)).af ≤ 1 / 5) ∧
      List.Chain' (afRel (1 / 50))
        (psarStates [2, 3] [1, 2] [1, 2] (1 / 50) (1 / 5)) :=
  ⟨by norm_num, by norm_num,
    (psar_af_run_invariant [2, 3] [1, 2] [1, 2] (1 / 50) (1 / 5)
      (by norm_num) (by norm_num)).1 (psarInit [2, 3] [1, 2] [1, 2] (1 / 50))
      (by rw [psarStates]; exact List.mem_cons_self _ _),
    (psar_af_run_invariant [2, 3] [1, 2] [1, 2] (1 / 50) (1 / 5)
      (by norm_num) (by norm_num)).2⟩

/-- Witness for C10 amended on close = [2], volume = [5]. -/
theorem obv_first_bar_w :
    1 ≤ ([2] : List ℚ).length ∧ ([2] : List ℚ).getD 0 0 ≠ 1 ∧
      (obv [2] [5]).getD 0 0 = -(([5] : List ℚ).getD 0 0) :=
  ⟨by decide, by norm_num, obv_first_bar [2] [5] (by decide) (by norm_num)⟩

end PyTi
